import Mathlib

/-!
# Aerospike server: replica-write protocol constants and server start-up

A shallow embedding of

* `as/include/base/thr_rw_internal.h`: the `RW_FIELD_*` wire field tags, the
  `RW_OP_*` operation codes, the `RW_INFO_*` info bitmap flags and
  `is_valid_ttl`;
* `as/src/base/as.c`: `main`, the server entry point, as a function from the
  results of the calls it makes into libc and into other modules to the
  sequence of calls it performs and the way it ends.

Unsigned C integers are natural numbers.
-/

namespace Aerospike

/-! ## thr_rw_internal.h : wire field tags -/

def RW_FIELD_OP : Nat := 0
def RW_FIELD_RESULT : Nat := 1
def RW_FIELD_NAMESPACE : Nat := 2
def RW_FIELD_NS_ID : Nat := 3
def RW_FIELD_GENERATION : Nat := 4
def RW_FIELD_DIGEST : Nat := 5
def RW_FIELD_VINFOSET : Nat := 6
def RW_FIELD_AS_MSG : Nat := 7
def RW_FIELD_CLUSTER_KEY : Nat := 8
def RW_FIELD_RECORD : Nat := 9
def RW_FIELD_TID : Nat := 10
def RW_FIELD_VOID_TIME : Nat := 11
def RW_FIELD_INFO : Nat := 12
def RW_FIELD_REC_PROPS : Nat := 13
def RW_FIELD_MULTIOP : Nat := 14
def RW_FIELD_LDT_VERSION : Nat := 15
def RW_FIELD_LAST_UPDATE_TIME : Nat := 16

/-- The names `RW_FIELD_*` that the header defines, one constructor per
`#define`, in the order of the header. -/
inductive RwField
  | OP | RESULT | NAMESPACE | NS_ID | GENERATION | DIGEST | VINFOSET | AS_MSG
  | CLUSTER_KEY | RECORD | TID | VOID_TIME | INFO | REC_PROPS | MULTIOP
  | LDT_VERSION | LAST_UPDATE_TIME
  deriving DecidableEq, Repr, Fintype

/-- The integer tag the header gives to each field name. -/
def RwField.tag : RwField → Nat
  | .OP => RW_FIELD_OP
  | .RESULT => RW_FIELD_RESULT
  | .NAMESPACE => RW_FIELD_NAMESPACE
  | .NS_ID => RW_FIELD_NS_ID
  | .GENERATION => RW_FIELD_GENERATION
  | .DIGEST => RW_FIELD_DIGEST
  | .VINFOSET => RW_FIELD_VINFOSET
  | .AS_MSG => RW_FIELD_AS_MSG
  | .CLUSTER_KEY => RW_FIELD_CLUSTER_KEY
  | .RECORD => RW_FIELD_RECORD
  | .TID => RW_FIELD_TID
  | .VOID_TIME => RW_FIELD_VOID_TIME
  | .INFO => RW_FIELD_INFO
  | .REC_PROPS => RW_FIELD_REC_PROPS
  | .MULTIOP => RW_FIELD_MULTIOP
  | .LDT_VERSION => RW_FIELD_LDT_VERSION
  | .LAST_UPDATE_TIME => RW_FIELD_LAST_UPDATE_TIME

/-- The wire message field table of the specification (section 6), one
constructor per listed field, in the order the table lists them. This
definition follows the specification, not the header. -/
inductive SpecField
  | operation_code | result_code | namespace_id | generation | digest
  | record_version_set | as_request_payload | cluster_key_epoch | record_blob
  | transaction_id | void_time | info_bitmap | companion_metadata
  | sub_operation_bundle | partition_version_tag | last_update_time
  deriving DecidableEq, Repr, Fintype

/-- Position of a field in the specification's table, counted from 0. -/
def SpecField.pos : SpecField → Nat
  | .operation_code => 0
  | .result_code => 1
  | .namespace_id => 2
  | .generation => 3
  | .digest => 4
  | .record_version_set => 5
  | .as_request_payload => 6
  | .cluster_key_epoch => 7
  | .record_blob => 8
  | .transaction_id => 9
  | .void_time => 10
  | .info_bitmap => 11
  | .companion_metadata => 12
  | .sub_operation_bundle => 13
  | .partition_version_tag => 14
  | .last_update_time => 15

/-- The listed field each header tag carries. The header has two tags for the
namespace of a record, `RW_FIELD_NAMESPACE` and `RW_FIELD_NS_ID` (the id of
the namespace on the initiating node); both go to the table's one
namespace-id entry. -/
def RwField.specField : RwField → SpecField
  | .OP => .operation_code
  | .RESULT => .result_code
  | .NAMESPACE => .namespace_id
  | .NS_ID => .namespace_id
  | .GENERATION => .generation
  | .DIGEST => .digest
  | .VINFOSET => .record_version_set
  | .AS_MSG => .as_request_payload
  | .CLUSTER_KEY => .cluster_key_epoch
  | .RECORD => .record_blob
  | .TID => .transaction_id
  | .VOID_TIME => .void_time
  | .INFO => .info_bitmap
  | .REC_PROPS => .companion_metadata
  | .MULTIOP => .sub_operation_bundle
  | .LDT_VERSION => .partition_version_tag
  | .LAST_UPDATE_TIME => .last_update_time

/-! ## thr_rw_internal.h : operation codes -/

def RW_OP_WRITE : Nat := 1
def RW_OP_WRITE_ACK : Nat := 2
def RW_OP_DUP : Nat := 3
def RW_OP_DUP_ACK : Nat := 4
def RW_OP_MULTI : Nat := 5
def RW_OP_MULTI_ACK : Nat := 6

/-- The three request operations. -/
inductive RwRequest
  | WRITE | DUP | MULTI
  deriving DecidableEq, Repr, Fintype

/-- Operation code of a request. -/
def RwRequest.code : RwRequest → Nat
  | .WRITE => RW_OP_WRITE
  | .DUP => RW_OP_DUP
  | .MULTI => RW_OP_MULTI

/-- Operation code of the acknowledgement the header names after a request
(`RW_OP_x_ACK` for `RW_OP_x`). -/
def RwRequest.ack : RwRequest → Nat
  | .WRITE => RW_OP_WRITE_ACK
  | .DUP => RW_OP_DUP_ACK
  | .MULTI => RW_OP_MULTI_ACK

/-- All six operation codes, in the order of the header. -/
def rw_op_codes : List Nat :=
  [RW_OP_WRITE, RW_OP_WRITE_ACK, RW_OP_DUP, RW_OP_DUP_ACK, RW_OP_MULTI, RW_OP_MULTI_ACK]

/-! ## thr_rw_internal.h : info bitmap flags -/

def RW_INFO_XDR : Nat := 0x0001
def RW_INFO_MIGRATION : Nat := 0x0002
def RW_INFO_NSUP_DELETE : Nat := 0x0004
def RW_INFO_LDT_DUMMY : Nat := 0x0008
def RW_INFO_LDT_PARENTREC : Nat := 0x0010
def RW_INFO_LDT_SUBREC : Nat := 0x0020
def RW_INFO_LDT_ESR : Nat := 0x0040
def RW_INFO_SINDEX_TOUCHED : Nat := 0x0080
def RW_INFO_LDT : Nat := 0x0100
def RW_INFO_UDF_WRITE : Nat := 0x0200

/-- The names `RW_INFO_*` that the header defines. -/
inductive RwInfo
  | XDR | MIGRATION | NSUP_DELETE | LDT_DUMMY | LDT_PARENTREC | LDT_SUBREC
  | LDT_ESR | SINDEX_TOUCHED | LDT | UDF_WRITE
  deriving DecidableEq, Repr, Fintype

/-- The mask the header gives to each flag name. -/
def RwInfo.mask : RwInfo → Nat
  | .XDR => RW_INFO_XDR
  | .MIGRATION => RW_INFO_MIGRATION
  | .NSUP_DELETE => RW_INFO_NSUP_DELETE
  | .LDT_DUMMY => RW_INFO_LDT_DUMMY
  | .LDT_PARENTREC => RW_INFO_LDT_PARENTREC
  | .LDT_SUBREC => RW_INFO_LDT_SUBREC
  | .LDT_ESR => RW_INFO_LDT_ESR
  | .SINDEX_TOUCHED => RW_INFO_SINDEX_TOUCHED
  | .LDT => RW_INFO_LDT
  | .UDF_WRITE => RW_INFO_UDF_WRITE

/-- The bit position of each flag: its mask is 2 to that power. -/
def RwInfo.bit : RwInfo → Nat
  | .XDR => 0
  | .MIGRATION => 1
  | .NSUP_DELETE => 2
  | .LDT_DUMMY => 3
  | .LDT_PARENTREC => 4
  | .LDT_SUBREC => 5
  | .LDT_ESR => 6
  | .SINDEX_TOUCHED => 7
  | .LDT => 8
  | .UDF_WRITE => 9

/-- The info bitmap with the flags of `S` set: the bitwise OR of their masks,
as a sender builds it with `info |= RW_INFO_x`. -/
def info_bitmap : List RwInfo → Nat
  | [] => 0
  | f :: S => f.mask ||| info_bitmap S

/-- The test a receiver makes for one flag: `info & RW_INFO_x` is non-zero. -/
def info_has (info : Nat) (f : RwInfo) : Bool :=
  info &&& f.mask != 0

/-! ## thr_rw_internal.h : is_valid_ttl -/

/-- The one member of `as_namespace` that `is_valid_ttl` reads. The structure
is declared in `base/datamodel.h`; the member is taken as an unsigned integer
at least as wide as `ttl`, so that the comparison is one of natural numbers. -/
structure as_namespace where
  max_ttl : Nat

/-- The function `is_valid_ttl` of the header: `ttl <= ns->max_ttl || ttl == 0xFFFFffff`. -/
def is_valid_ttl (ns : as_namespace) (ttl : Nat) : Bool :=
  decide (ttl ≤ ns.max_ttl) || ttl == 0xFFFFffff

/-! ## as.c : constants -/

/-- One entry of `cmd_opts`: the long option's name, whether it takes an
argument (`required_argument`, else `no_argument`), and the value
`getopt_long` returns for it (the `flag` member is 0 in every entry). -/
structure cmd_opt where
  name : String
  has_arg : Bool
  val : Char
  deriving DecidableEq, Repr

/-- Command line options for the Aerospike server. -/
def cmd_opts : List cmd_opt :=
  [ ⟨"help", false, 'h'⟩,
    ⟨"version", false, 'v'⟩,
    ⟨"config-file", true, 'f'⟩,
    ⟨"foreground", false, 'd'⟩,
    ⟨"fgdaemon", false, 'F'⟩,
    ⟨"cold-start", false, 'c'⟩,
    ⟨"instance", true, 'n'⟩ ]

def HELP : String :=
  "\n" ++
  "Aerospike server installation installs the script /etc/init.d/aerospike which\n" ++
  "is normally used to start and stop the server. The script is also found as\n" ++
  "as/etc/init-script in the source tree.\n" ++
  "\n" ++
  "asd informative command-line options:\n" ++
  "\n" ++
  "--help" ++
  "\n" ++
  "Print this message and exit.\n" ++
  "\n" ++
  "--version" ++
  "\n" ++
  "Print edition and build version information and exit.\n" ++
  "\n" ++
  "asd runtime command-line options:\n" ++
  "\n" ++
  "--config-file <file>" ++
  "\n" ++
  "Specify the location of the Aerospike server config file. If this option is not\n" ++
  "specified, the default location /etc/aerospike/aerospike.conf is used.\n" ++
  "\n" ++
  "--foreground" ++
  "\n" ++
  "Specify that Aerospike not be daemonized. This is useful for running Aerospike\n" ++
  "in gdb. Alternatively, add 'run-as-daemon false' in the service context of the\n" ++
  "Aerospike config file.\n" ++
  "\n" ++
  "--fgdaemon" ++
  "\n" ++
  "Specify that Aerospike is to be run as a \"new-style\" (foreground) daemon. This\n" ++
  "is useful for running Aerospike under systemd or Docker.\n" ++
  "\n" ++
  "--cold-start" ++
  "\n" ++
  "(Enterprise edition only.) At startup, force the Aerospike server to read all\n" ++
  "records from storage devices to rebuild the index.\n" ++
  "\n" ++
  "--instance <0-15>" ++
  "\n" ++
  "(Enterprise edition only.) If running multiple instances of Aerospike on one\n" ++
  "machine (not recommended), each instance must be uniquely designated via this\n" ++
  "option.\n"

def USAGE : String :=
  "\n" ++
  "asd informative command-line options:\n" ++
  "[--help]\n" ++
  "[--version]\n" ++
  "\n" ++
  "asd runtime command-line options:\n" ++
  "[--config-file <file>] " ++
  "[--foreground] " ++
  "[--fgdaemon] " ++
  "[--cold-start] " ++
  "[--instance <0-15>]\n"

def DEFAULT_CONFIG_FILE : String := "/etc/aerospike/aerospike.conf"

/-! ## as.c : what `main` is given

`main` calls into libc and into other modules of the server. What those calls
return is an input of the model. -/

/-- One return of `getopt_long` other than -1: the value returned, and the
string `optarg` points to after the call (read by `main` only for the options
that take an argument). With `cmd_opts` and the empty short-option string the
value is the `val` of the option found, or `'?'` for a word `getopt_long`
does not accept. -/
structure getopt_result where
  i : Nat
  optarg : String
  deriving DecidableEq, Repr

/-- The members of `as_config` that `main` reads (the structure is declared in
`base/cfg.h`). `pidfile` is `none` for a null pointer. -/
structure as_config where
  uid : Nat
  gid : Nat
  run_as_daemon : Bool
  pidfile : Option String
  work_directory : String
  mod_lua_system_path : String
  mod_lua_user_path : String
  memory_accounting : Bool
  asmalloc_enabled : Bool
  deriving DecidableEq, Repr

/-- Result of `stat(path, &buf)` as `validate_directory` uses it. -/
inductive stat_result
  | failed
  | ok (is_dir : Bool)
  deriving DecidableEq, Repr

/-- Everything `main` obtains from outside `as.c`.

* `USE_ASM`, `USE_JEM`, `MEM_COUNT`: the build's preprocessor switches;
* `getopt_long`: the successive return values of `getopt_long` for the
  command line, up to and not including the final -1;
* `strtol`: the value of `strtol(optarg, NULL, 0)`;
* `as_config_init`: the configuration parsed from a configuration file;
* `as_config_post_process`: the configuration as that call leaves it;
* the remaining members: the value of the call of the same name
  (`open_pidfile`, `write_pidfile`: of `open` and `write` in `write_pidfile`). -/
structure Env where
  USE_ASM : Bool
  USE_JEM : Bool
  MEM_COUNT : Bool
  aerospike_build_type : String
  aerospike_build_id : String
  getopt_long : List getopt_result
  strtol : String → Int
  as_config_init : String → as_config
  as_config_post_process : as_config → String → as_config
  geteuid : Nat
  cf_fault_console_is_held : Bool
  cf_fault_sink_activate_all_held : Int
  stat : String → stat_result
  open_pidfile : Int
  write_pidfile : Int

/-! ## as.c : what `main` does

A run of `main` is the list of the calls it makes that act on the process or
on another module, in order, and the way it ends. Calls that only read
(`geteuid`, `stat`, `cf_fault_console_is_held`, `getpid`, `strlen`) are not
listed. Allocation by `cf_strdup` is taken to succeed, and a call into another
module is taken to return. The text of a log call is its format string. -/

/-- A call made by `main`, `write_pidfile` or `validate_directory`. -/
inductive Call
  | asm_init
  | jem_init
  | cf_rc_init
  | cf_fault_init
  | as_signal_setup
  | as_json_init
  | printf (out : String)
  | fprintf_stderr (out : String)
  | cf_strdup (s : String)
  | strtol (s : String)
  | as_config_init (config_file : String)
  | mem_count_init (enable : Bool)
  | cf_info (msg : String)
  | cf_warning (msg : String)
  | cf_crash_nostack (msg : String)
  | cf_process_privsep (uid gid : Nat)
  | cf_fault_sink_activate_all_held
  | cf_fault_sink_get_fd_list
  | cf_process_daemonize
  | as_config_post_process (config_file : String)
  | xdr_conf_init (config_file : String)
  | cf_free
  | remove (path : String)
  | open_ (path : String)
  | write
  | close
  | as_smd_init
  | ai_init
  | as_sindex_thr_init
  | as_namespaces_init (cold_start_cmd : Bool) (instance_num : Nat)
  | as_storage_init
  | as_sindex_boot_populateall
  | as_netio_init
  | as_security_init
  | as_tsvc_init
  | as_hb_init
  | as_fabric_init
  | as_info_init
  | as_paxos_init
  | as_migrate_init
  | as_proxy_init
  | as_write_init
  | as_query_init
  | as_udf_rw_init
  | as_scan_init
  | as_batch_init
  | as_batch_direct_init
  | as_xdr_init
  | as_mon_init
  | as_storage_wait_for_defrag
  | as_smd_start
  | as_fabric_start
  | as_xdr_start
  | as_hb_start
  | as_paxos_start
  | as_nsup_start
  | as_demarshal_start
  | as_info_port_start
  | info_debug_ticker_start
  deriving Repr

/-- How a run ends. -/
inductive Outcome
  /-- A `return` statement of `main`, with the value returned. -/
  | returned (status : Int)
  /-- The process was ended by `cf_crash_nostack`. -/
  | crashed
  /-- Start-up is complete: the service is ready and `main` waits on
  `g_NONSTOP` for a shutdown signal. -/
  | service_ready
  deriving DecidableEq, Repr

/-- A run of `main`, or of a part of it. -/
structure Run where
  trace : List Call
  outcome : Outcome
  deriving Repr

/-- The calls `cs`, then the run `k`. -/
def Run.after (cs : List Call) (k : Run) : Run :=
  ⟨cs ++ k.trace, k.outcome⟩

/-- The local variables of `main` that the option loop sets.
`config_file_is_default` records whether `config_file` still is the pointer
`DEFAULT_CONFIG_FILE` (the test `config_file != DEFAULT_CONFIG_FILE` compares
pointers). -/
structure Locals where
  config_file : String
  config_file_is_default : Bool
  run_in_foreground : Bool
  new_style_daemon : Bool
  cold_start_cmd : Bool
  instance_num : Nat
  deriving DecidableEq, Repr

/-- The initial values of the locals. -/
def Locals.init : Locals :=
  { config_file := DEFAULT_CONFIG_FILE
    config_file_is_default := true
    run_in_foreground := false
    new_style_daemon := false
    cold_start_cmd := false
    instance_num := 0 }

/-- The cast `(uint32_t)` of a `long`. -/
def to_uint32 (x : Int) : Nat :=
  (x % 2 ^ 32).toNat

/-- The loop `while (-1 != (i = getopt_long(...))) switch (i) ...` of `main`,
run on the remaining returns of `getopt_long`: the calls made, and either the
value `main` returns from inside the loop or the locals when the loop ends. -/
def parse_options (env : Env) : List getopt_result → Locals → List Call × (Int ⊕ Locals)
  | [], l => ([], .inr l)
  | r :: rs, l =>
    if r.i = 'h'.toNat then
      ([.printf (HELP ++ "\n")], .inl 0)
    else if r.i = 'v'.toNat then
      ([.printf (env.aerospike_build_type ++ " build " ++ env.aerospike_build_id ++ "\n")], .inl 0)
    else if r.i = 'f'.toNat then
      let rest := parse_options env rs
        { l with config_file := r.optarg, config_file_is_default := false }
      (.cf_strdup r.optarg :: rest.1, rest.2)
    else if r.i = 'F'.toNat then
      parse_options env rs { l with run_in_foreground := true, new_style_daemon := true }
    else if r.i = 'd'.toNat then
      parse_options env rs { l with run_in_foreground := true }
    else if r.i = 'c'.toNat then
      parse_options env rs { l with cold_start_cmd := true }
    else if r.i = 'n'.toNat then
      let rest := parse_options env rs { l with instance_num := to_uint32 (env.strtol r.optarg) }
      (.strtol r.optarg :: rest.1, rest.2)
    else
      ([.fprintf_stderr (USAGE ++ "\n")], .inl 1)

/-- The function `validate_directory`, followed by `k` when it returns (the
argument `log_tag` only fills the log text). -/
def validate_directory (env : Env) (path : String) (k : Run) : Run :=
  match env.stat path with
  | .failed =>
    ⟨[.cf_crash_nostack ("%s directory '%s' is not set up properly: %s")], .crashed⟩
  | .ok false =>
    ⟨[.cf_crash_nostack ("%s directory '%s' is not set up properly: Not a directory")], .crashed⟩
  | .ok true => k

/-- The function `validate_smd_directory`, followed by `k` when it returns. -/
def validate_smd_directory (env : Env) (g_config : as_config) (k : Run) : Run :=
  validate_directory env (g_config.work_directory ++ "/smd") k

/-- The function `write_pidfile`, followed by `k` when it returns. -/
def write_pidfile (env : Env) (pidfile : Option String) (k : Run) : Run :=
  match pidfile with
  | none => k
  | some path =>
    Run.after [.remove path, .open_ path] <|
    if env.open_pidfile < 0 then
      ⟨[.cf_crash_nostack "failed to open pid file %s: %s"], .crashed⟩
    else
      Run.after [.write] <|
      Run.after (if env.write_pidfile = -1 then [.cf_warning "failed write to pid file %s: %s"] else []) <|
      Run.after [.close] k

/-- The subsystem initialisations of `main`, in order. -/
def init_subsystems (l : Locals) : List Call :=
  [ .as_smd_init, .ai_init, .as_sindex_thr_init,
    .as_namespaces_init l.cold_start_cmd l.instance_num,
    .as_storage_init, .as_sindex_boot_populateall,
    .cf_info "initializing services...",
    .as_netio_init, .as_security_init, .as_tsvc_init, .as_hb_init, .as_fabric_init,
    .as_info_init, .as_paxos_init, .as_migrate_init, .as_proxy_init, .as_write_init,
    .as_query_init, .as_udf_rw_init, .as_scan_init, .as_batch_init,
    .as_batch_direct_init, .as_xdr_init, .as_mon_init,
    .as_storage_wait_for_defrag ]

/-- The subsystem starts of `main`, in order, and the service-ready message. -/
def start_subsystems : List Call :=
  [ .as_smd_start, .as_fabric_start, .as_xdr_start, .as_hb_start, .as_paxos_start,
    .as_nsup_start, .as_demarshal_start, .as_info_port_start, .info_debug_ticker_start,
    .cf_info "service ready: soon there will be cake!" ]

/-- The part of `main` before the option loop. -/
def main_prologue (env : Env) : List Call :=
  (if env.USE_ASM then [.asm_init] else []) ++
  (if env.USE_JEM then [.jem_init] else []) ++
  [.cf_rc_init, .cf_fault_init, .as_signal_setup, .as_json_init]

/-- The part of `main` after the daemonize step, up to the point where the
service is ready, for the locals `l` the option loop left and the
configuration `c`. -/
def main_finish (env : Env) (l : Locals) (c : as_config) : Run :=
  Run.after
    (if env.USE_ASM then
      .fprintf_stderr "Initial main thread tid: %lu\n" ::
        (if ¬ l.run_in_foreground ∧ c.run_as_daemon then
          [.fprintf_stderr "Post-daemonize main thread tid: %lu\n"]
        else [])
    else []) <|
  Run.after [.cf_info ("<><><><><><><><><><>  " ++ env.aerospike_build_type ++ " build " ++
      env.aerospike_build_id ++ "  <><><><><><><><><><>")] <|
  let c := env.as_config_post_process c l.config_file
  Run.after [.as_config_post_process l.config_file, .xdr_conf_init l.config_file] <|
  Run.after (if ¬ l.config_file_is_default then [.cf_free] else []) <|
  (if ¬ l.new_style_daemon then
    write_pidfile env c.pidfile
  else
    Run.after
      (if c.pidfile.isSome then
        [.cf_warning "will not write PID file in new-style daemon mode"]
      else [])) <|
  validate_directory env c.work_directory <|
  validate_directory env c.mod_lua_system_path <|
  validate_directory env c.mod_lua_user_path <|
  validate_smd_directory env c <|
  ⟨init_subsystems l ++ start_subsystems, .service_ready⟩

/-- The part of `main` after the option loop, for the locals `l` the loop
left: from `as_config_init` through the daemonize step, then `main_finish`. -/
def main_startup (env : Env) (l : Locals) : Run :=
  let c := env.as_config_init l.config_file
  Run.after [.as_config_init l.config_file] <|
  Run.after (if env.MEM_COUNT then [.mem_count_init c.memory_accounting] else []) <|
  Run.after
    (if 0 ≠ c.uid ∧ 0 = env.geteuid then
      if ¬ l.new_style_daemon then
        [.cf_info "privsep to %d %d", .cf_process_privsep c.uid c.gid]
      else
        [.cf_warning "will not do privsep in new-style daemon mode"]
    else []) <|
  Run.after
    (if l.new_style_daemon ∧ ¬ env.cf_fault_console_is_held then
      [.cf_warning "in new-style daemon mode, console logging is not configured"]
    else []) <|
  Run.after [.cf_fault_sink_activate_all_held] <|
  if 0 ≠ env.cf_fault_sink_activate_all_held then
    ⟨[.cf_crash_nostack "can't open log sink(s)"], .crashed⟩
  else
  Run.after
    (if ¬ l.run_in_foreground ∧ c.run_as_daemon then
      [.cf_fault_sink_get_fd_list, .cf_process_daemonize]
    else []) <|
  main_finish env l c

/-- The function `main`, from its entry to the point where it either returns,
is ended by `cf_crash_nostack`, or has the service ready and waits for a
shutdown signal. -/
def main (env : Env) : Run :=
  Run.after (main_prologue env) <|
  match parse_options env env.getopt_long Locals.init with
  | (calls, .inl status) => ⟨calls, .returned status⟩
  | (calls, .inr l) => Run.after calls (main_startup env l)

/-- The calls the option loop makes. -/
def Call.in_option_loop : Call → Bool
  | .cf_strdup _ => true
  | .strtol _ => true
  | .printf _ => true
  | .fprintf_stderr _ => true
  | _ => false

/-- The calls of the configuration and daemonize steps of `main_startup`:
the ones `main_finish` does not make. -/
def Call.config_or_daemonize : Call → Bool
  | .as_config_init _ => true
  | .cf_fault_sink_get_fd_list => true
  | .cf_process_daemonize => true
  | _ => false

/-- A run that makes none of the configuration and daemonize calls and does
not end by a `return`. -/
def Run.is_tail (r : Run) : Prop :=
  (∀ c ∈ r.trace, c.config_or_daemonize = false) ∧ ∀ status, r.outcome ≠ .returned status

/-! ## as.c : the command line, as the option loop sees it -/

/-- The return of `getopt_long` for `--help`. -/
def is_help (r : getopt_result) : Bool := r.i == 'h'.toNat

/-- The return of `getopt_long` for `--version`. -/
def is_version (r : getopt_result) : Bool := r.i == 'v'.toNat

/-- The return of `getopt_long` for `--config-file <file>`. -/
def is_config_file (r : getopt_result) : Bool := r.i == 'f'.toNat

/-- The return of `getopt_long` for `--foreground`. -/
def is_foreground (r : getopt_result) : Bool := r.i == 'd'.toNat

/-- The return of `getopt_long` for `--fgdaemon`. -/
def is_fgdaemon (r : getopt_result) : Bool := r.i == 'F'.toNat

/-- A return of `getopt_long` that is the `val` of no entry of `cmd_opts`:
what it returns (`'?'`) for an option it does not recognise. -/
def is_unrecognised (r : getopt_result) : Bool :=
  cmd_opts.all (fun o => r.i != o.val.toNat)

/-- The options on which the claim says the loop leaves `main`. -/
def ends_main (r : getopt_result) : Bool :=
  is_help r || is_version r || is_unrecognised r

/-- The configuration file the command line selects, in the words of the help
text: the argument of the last `--config-file` option, or the default
location when there is none. -/
def selected_config_file (rs : List getopt_result) : String :=
  match (rs.filter is_config_file).getLast? with
  | none => DEFAULT_CONFIG_FILE
  | some r => r.optarg

/-! ## as.c : sample runs -/

/-- A configuration with `run-as-daemon true`, no pid file and the server running
as root. -/
def sample_config : as_config :=
  { uid := 0
    gid := 0
    run_as_daemon := true
    pidfile := none
    work_directory := "/opt/aerospike"
    mod_lua_system_path := "/opt/aerospike/sys/udf/lua"
    mod_lua_user_path := "/opt/aerospike/usr/udf/lua"
    memory_accounting := false
    asmalloc_enabled := false }

/-- An environment in which every configuration file holds `sample_config`, all
directories exist, and `getopt_long` returns `rs` and
`cf_fault_sink_activate_all_held` returns `sinks`. -/
def sample_env (rs : List getopt_result) (sinks : Int) : Env :=
  { USE_ASM := false
    USE_JEM := false
    MEM_COUNT := false
    aerospike_build_type := "Aerospike Community Edition"
    aerospike_build_id := "3.5.14"
    getopt_long := rs
    strtol := fun _ => 0
    as_config_init := fun _ => sample_config
    as_config_post_process := fun c _ => c
    geteuid := 0
    cf_fault_console_is_held := false
    cf_fault_sink_activate_all_held := sinks
    stat := fun _ => .ok true
    open_pidfile := 3
    write_pidfile := 5 }

/-- The command line `asd --foreground --help --bogus`. -/
def cmdline_foreground_help_bogus : List getopt_result :=
  [⟨'d'.toNat, ""⟩, ⟨'h'.toNat, ""⟩, ⟨'?'.toNat, ""⟩]

/-- The command line `asd --config-file a.conf --cold-start --config-file b.conf`. -/
def cmdline_two_config_files : List getopt_result :=
  [⟨'f'.toNat, "a.conf"⟩, ⟨'c'.toNat, ""⟩, ⟨'f'.toNat, "b.conf"⟩]

/-- The command line `asd --version`. -/
def cmdline_version : List getopt_result :=
  [⟨'v'.toNat, ""⟩]

/-- The command line `asd --cold-start`. -/
def cmdline_cold_start : List getopt_result :=
  [⟨'c'.toNat, ""⟩]

/-! ## Properties of the header's constants -/

/-- C1: `is_valid_ttl ns ttl` holds exactly when `ttl <= ns.max_ttl` or `ttl` is
`0xFFFFFFFF`; in particular ttl 0 (namespace default) and ttl `0xFFFFFFFF`
(never expire) are valid for every namespace, whatever its `max_ttl`. -/
theorem is_valid_ttl_iff (ns : as_namespace) (ttl : Nat) :
    (is_valid_ttl ns ttl = true ↔ ttl ≤ ns.max_ttl ∨ ttl = 0xFFFFFFFF) ∧
    is_valid_ttl ns 0 = true ∧ is_valid_ttl ns 0xFFFFFFFF = true := by
  refine ⟨?_, ?_, ?_⟩
  · simp [is_valid_ttl]
  · simp [is_valid_ttl]
  · simp [is_valid_ttl]

theorem RwInfo.mask_eq_two_pow (f : RwInfo) : f.mask = 2 ^ f.bit := by
  cases f <;> rfl

theorem and_two_pow_ne_zero (x k : Nat) : x &&& 2 ^ k ≠ 0 ↔ x.testBit k = true := by
  constructor
  · intro h
    by_contra hk
    apply h
    apply Nat.eq_of_testBit_eq
    intro i
    by_cases hi : k = i
    · subst hi
      simp [hk]
    · simp [Nat.testBit_two_pow, hi]
  · intro hk h
    have h2 : (x &&& 2 ^ k).testBit k = true := by
      simp [Nat.testBit_two_pow, hk]
    rw [h] at h2
    simp at h2

theorem RwInfo.bit_injective (f g : RwInfo) (h : g.bit = f.bit) : g = f := by
  cases f <;> cases g <;> first | rfl | exact absurd h (by decide)

theorem info_bitmap_testBit (S : List RwInfo) (f : RwInfo) :
    (info_bitmap S).testBit f.bit = true ↔ f ∈ S := by
  induction S with
  | nil => simp [info_bitmap]
  | cons g S ih =>
    rw [info_bitmap, Nat.testBit_or, Bool.or_eq_true, ih, g.mask_eq_two_pow,
      Nat.testBit_two_pow, List.mem_cons, decide_eq_true_eq]
    constructor
    · rintro (h | h)
      · exact Or.inl (RwInfo.bit_injective g f h.symm)
      · exact Or.inr h
    · rintro (h | h)
      · exact Or.inl (by rw [h])
      · exact Or.inr h

/-- C2: the ten info bitmap flags are bit-independent. Each mask is a single
bit, no two masks share a bit, and for every collection `S` of flags and every
flag `f`, the bitwise OR of the masks of `S` has the bit of `f` set exactly
when `f` is in `S`. -/
theorem rw_info_flags_independent :
    (∀ f : RwInfo, ∃ k, f.mask = 2 ^ k) ∧
    (∀ f g : RwInfo, f ≠ g → f.mask &&& g.mask = 0) ∧
    (∀ (S : List RwInfo) (f : RwInfo), info_has (info_bitmap S) f = true ↔ f ∈ S) := by
  refine ⟨fun f => ⟨f.bit, f.mask_eq_two_pow⟩, ?_, ?_⟩
  · intro f g hfg
    cases f <;> cases g <;> first | exact absurd rfl hfg | decide
  · intro S f
    rw [← info_bitmap_testBit S f, ← and_two_pow_ne_zero, ← f.mask_eq_two_pow]
    simp [info_has]

/-- C3: the `RW_FIELD_*` tags are pairwise distinct, `RW_FIELD_OP` is the
smallest and `RW_FIELD_RESULT` the second smallest of them, so every list of
fields laid out in increasing tag order that has both starts with the
operation code, then the result, then the other fields. -/
theorem rw_field_tags_order :
    Function.Injective RwField.tag ∧
    (∀ f : RwField, f ≠ .OP → RwField.OP.tag < f.tag) ∧
    (∀ f : RwField, f ≠ .OP → f ≠ .RESULT → RwField.RESULT.tag < f.tag) ∧
    (∀ L : List RwField, L.Pairwise (fun a b => a.tag < b.tag) →
      RwField.OP ∈ L → RwField.RESULT ∈ L →
      ∃ rest, L = .OP :: .RESULT :: rest ∧ ∀ f ∈ rest, f ≠ .OP ∧ f ≠ .RESULT) := by
  have hinj : Function.Injective RwField.tag := by
    intro a b
    cases a <;> cases b <;> decide
  have hop : ∀ f : RwField, f ≠ .OP → RwField.OP.tag < f.tag := by
    intro f
    cases f <;> decide
  have hres : ∀ f : RwField, f ≠ .OP → f ≠ .RESULT → RwField.RESULT.tag < f.tag := by
    intro f
    cases f <;> decide
  refine ⟨hinj, hop, hres, ?_⟩
  intro L hL hOP hRES
  match L, hL, hOP, hRES with
  | [], _, hOP, _ => simp at hOP
  | [a], hL, hOP, hRES =>
    simp only [List.mem_singleton] at hOP hRES
    rw [← hOP] at hRES
    exact absurd hRES (by decide)
  | a :: b :: rest, hL, hOP, hRES =>
    rw [List.pairwise_cons, List.pairwise_cons] at hL
    obtain ⟨ha, hb, -⟩ := hL
    have ha0 : a = .OP := by
      by_contra hne
      have h1 := ha _ (List.mem_cons.1 hOP |>.resolve_left (fun h => hne h.symm))
      exact absurd (hop a hne) (by omega)
    subst ha0
    have hR : RwField.RESULT ∈ b :: rest :=
      (List.mem_cons.1 hRES).resolve_left (by decide)
    have hb0 : b = .RESULT := by
      by_contra hne
      have h1 := hb _ (List.mem_cons.1 hR |>.resolve_left (fun h => hne h.symm))
      have hbOP : b ≠ .OP := by
        intro h
        have h2 := ha b (List.mem_cons_self _ _)
        rw [h] at h2
        exact absurd h2 (by decide)
      exact absurd (hres b hbOP hne) (by omega)
    subst hb0
    refine ⟨rest, rfl, ?_⟩
    intro f hf
    constructor
    · intro h
      have h2 := ha f (List.mem_cons_of_mem _ hf)
      rw [h] at h2
      exact absurd h2 (by decide)
    · intro h
      have h2 := hb f hf
      rw [h] at h2
      exact absurd h2 (by decide)

/-- C4: the six operation codes are pairwise distinct and non-zero, they are
the codes of the three requests and of their acks, the ack code of each
request is its code plus one, so every request code is odd and every ack code
even, and the map from a request to its ack is injective. -/
theorem rw_op_request_ack_pairs :
    rw_op_codes.Nodup ∧
    (∀ c ∈ rw_op_codes, c ≠ 0) ∧
    (∀ c, c ∈ rw_op_codes ↔ ∃ r : RwRequest, c = r.code ∨ c = r.ack) ∧
    (∀ r : RwRequest, r.ack = r.code + 1 ∧ r.code % 2 = 1 ∧ r.ack % 2 = 0) ∧
    Function.Injective RwRequest.ack := by
  refine ⟨by decide, by decide, ?_, ?_, ?_⟩
  · intro c
    constructor
    · intro h
      simp only [rw_op_codes, List.mem_cons, List.mem_singleton, List.not_mem_nil, or_false] at h
      rcases h with h | h | h | h | h | h
      · exact ⟨.WRITE, Or.inl h⟩
      · exact ⟨.WRITE, Or.inr h⟩
      · exact ⟨.DUP, Or.inl h⟩
      · exact ⟨.DUP, Or.inr h⟩
      · exact ⟨.MULTI, Or.inl h⟩
      · exact ⟨.MULTI, Or.inr h⟩
    · rintro ⟨r, h | h⟩ <;> subst h <;> cases r <;> decide
  · intro r
    cases r <;> decide
  · intro a b
    cases a <;> cases b <;> decide

/-- C6, as stated, fails: the header defines seventeen field tags and the
specification's table lists sixteen fields, so no correspondence pairs every
tag with exactly one listed field and every listed field with exactly one
tag. -/
theorem rw_field_tags_not_sixteen :
    Fintype.card RwField = 17 ∧ Fintype.card SpecField = 16 ∧
    ¬ ∃ g : RwField → SpecField, Function.Bijective g := by
  refine ⟨rfl, rfl, ?_⟩
  rintro ⟨g, hg⟩
  have h := Fintype.card_of_bijective hg
  exact absurd h (by decide)

/-- C6, amended: the header defines seventeen tags, the numbers 0 to 16.
Every tag carries exactly one field of the specification's table and every
listed field has a tag: exactly one, except namespace-id, which has the two
tags `RW_FIELD_NAMESPACE` and `RW_FIELD_NS_ID`. Tags increase in the order
the table lists the fields. -/
theorem rw_field_tags_cover_spec_table :
    (∀ n : Nat, n < 17 ↔ ∃ f : RwField, f.tag = n) ∧
    Function.Injective RwField.tag ∧
    Function.Surjective RwField.specField ∧
    (∀ f g : RwField, f.specField = g.specField → f ≠ g →
      f.specField = .namespace_id ∧
      ((f = .NAMESPACE ∧ g = .NS_ID) ∨ (f = .NS_ID ∧ g = .NAMESPACE))) ∧
    (∀ f g : RwField, f.specField.pos < g.specField.pos → f.tag < g.tag) ∧
    (∀ f g : RwField, f.tag ≤ g.tag → f.specField.pos ≤ g.specField.pos) := by
  refine ⟨?_, ?_, ?_, by decide, by decide, by decide⟩
  · intro n
    constructor
    · intro h
      have : ∀ n : Fin 17, ∃ f : RwField, f.tag = n.val := by decide
      exact this ⟨n, h⟩
    · rintro ⟨f, rfl⟩
      cases f <;> decide
  · intro a b
    cases a <;> cases b <;> decide
  · intro s
    have : ∀ s : SpecField, ∃ f : RwField, f.specField = s := by decide
    exact this s

/-! ## Properties of the option loop and of `main` -/

theorem parse_options_calls (env : Env) (rs : List getopt_result) (l : Locals) :
    ∀ c ∈ (parse_options env rs l).1, c.in_option_loop = true := by
  induction rs generalizing l with
  | nil => simp [parse_options]
  | cons r rs ih =>
    unfold parse_options
    split_ifs <;> simp [Call.in_option_loop] <;> exact ih _

theorem ends_main_false_iff (r : getopt_result) :
    ends_main r = false ↔
      (r.i = 'f'.toNat ∨ r.i = 'F'.toNat ∨ r.i = 'd'.toNat ∨ r.i = 'c'.toNat ∨ r.i = 'n'.toNat) := by
  simp only [ends_main, is_help, is_version, is_unrecognised, cmd_opts, List.all_cons,
    List.all_nil, Bool.or_eq_false_iff, Bool.and_eq_false_iff, beq_eq_false_iff_ne,
    bne_eq_false_iff_eq, Bool.and_true]
  constructor
  · rintro ⟨⟨h1, h2⟩, h | h | h | h | h | h | h⟩
    · exact absurd h h1
    · exact absurd h h2
    · exact Or.inl h
    · exact Or.inr (Or.inr (Or.inl h))
    · exact Or.inr (Or.inl h)
    · exact Or.inr (Or.inr (Or.inr (Or.inl h)))
    · exact Or.inr (Or.inr (Or.inr (Or.inr h)))
  · rintro (h | h | h | h | h) <;> rw [h] <;> decide

theorem parse_options_done (env : Env) (rs : List getopt_result) (l : Locals)
    (h : ∀ r ∈ rs, ends_main r = false) :
    ∃ l2, (parse_options env rs l).2 = .inr l2 ∧
      l2.config_file =
        (match (rs.filter is_config_file).getLast? with
          | none => l.config_file
          | some r => r.optarg) ∧
      l2.run_in_foreground =
        (l.run_in_foreground || rs.any (fun r => is_foreground r || is_fgdaemon r)) := by
  induction rs generalizing l with
  | nil => exact ⟨l, by simp [parse_options]⟩
  | cons r rs ih =>
    have hr := (ends_main_false_iff r).1 (h r (List.mem_cons_self _ _))
    have hrs : ∀ x ∈ rs, ends_main x = false := fun x hx => h x (List.mem_cons_of_mem _ hx)
    have hcons : ∀ (d : String) (p : Bool), p = is_config_file r →
        (match ((r :: rs).filter is_config_file).getLast? with
          | none => d
          | some x => x.optarg) =
        (match (rs.filter is_config_file).getLast? with
          | none => (if p then r.optarg else d)
          | some x => x.optarg) := by
      intro d p hp
      subst hp
      cases hf : is_config_file r
      · simp [List.filter_cons, hf]
      · rw [List.filter_cons, if_pos hf, List.getLast?_cons]
        cases (rs.filter is_config_file).getLast? <;> simp
    rcases hr with hr | hr | hr | hr | hr
    · obtain ⟨l2, h1, h2, h3⟩ := ih
        { l with config_file := r.optarg, config_file_is_default := false } hrs
      refine ⟨l2, ?_, ?_, ?_⟩
      · rw [parse_options]
        simp [hr, h1]
      · rw [h2, hcons l.config_file true (by simp [is_config_file, hr])]
        simp
      · rw [h3]
        simp [is_foreground, is_fgdaemon, hr]
    · obtain ⟨l2, h1, h2, h3⟩ := ih
        { l with run_in_foreground := true, new_style_daemon := true } hrs
      refine ⟨l2, ?_, ?_, ?_⟩
      · rw [parse_options]
        simp [hr, h1]
      · rw [h2, hcons l.config_file false (by simp [is_config_file, hr])]
        simp
      · rw [h3]
        simp [is_foreground, is_fgdaemon, hr]
    · obtain ⟨l2, h1, h2, h3⟩ := ih { l with run_in_foreground := true } hrs
      refine ⟨l2, ?_, ?_, ?_⟩
      · rw [parse_options]
        simp [hr, h1]
      · rw [h2, hcons l.config_file false (by simp [is_config_file, hr])]
        simp
      · rw [h3]
        simp [is_foreground, is_fgdaemon, hr]
    · obtain ⟨l2, h1, h2, h3⟩ := ih { l with cold_start_cmd := true } hrs
      refine ⟨l2, ?_, ?_, ?_⟩
      · rw [parse_options]
        simp [hr, h1]
      · rw [h2, hcons l.config_file false (by simp [is_config_file, hr])]
        simp
      · rw [h3]
        simp [is_foreground, is_fgdaemon, hr]
    · obtain ⟨l2, h1, h2, h3⟩ := ih
        { l with instance_num := to_uint32 (env.strtol r.optarg) } hrs
      refine ⟨l2, ?_, ?_, ?_⟩
      · rw [parse_options]
        simp [hr, h1]
      · rw [h2, hcons l.config_file false (by simp [is_config_file, hr])]
        simp
      · rw [h3]
        simp [is_foreground, is_fgdaemon, hr]

theorem parse_options_exit (env : Env) (rs : List getopt_result) (l : Locals)
    (r : getopt_result) (h : rs.find? ends_main = some r) :
    (is_help r = true →
      (parse_options env rs l).2 = .inl 0 ∧
      (parse_options env rs l).1.getLast? = some (.printf (HELP ++ "\n"))) ∧
    (is_version r = true →
      (parse_options env rs l).2 = .inl 0 ∧
      (parse_options env rs l).1.getLast? =
        some (.printf (env.aerospike_build_type ++ " build " ++ env.aerospike_build_id ++ "\n"))) ∧
    (is_unrecognised r = true →
      (parse_options env rs l).2 = .inl 1 ∧
      (parse_options env rs l).1.getLast? = some (.fprintf_stderr (USAGE ++ "\n"))) := by
  induction rs generalizing l with
  | nil => simp at h
  | cons x xs ih =>
    rw [List.find?_cons] at h
    cases hx : ends_main x
    · rw [hx] at h
      simp only at h
      have hstep : ∀ l, ∃ l2 pre, parse_options env (x :: xs) l =
          (pre ++ (parse_options env xs l2).1, (parse_options env xs l2).2) := by
        intro l
        rcases (ends_main_false_iff x).1 hx with hr | hr | hr | hr | hr
        · exact ⟨{ l with config_file := x.optarg, config_file_is_default := false },
            [.cf_strdup x.optarg], by rw [parse_options]; simp [hr]⟩
        · exact ⟨{ l with run_in_foreground := true, new_style_daemon := true }, [],
            by rw [parse_options]; simp [hr]⟩
        · exact ⟨{ l with run_in_foreground := true }, [], by rw [parse_options]; simp [hr]⟩
        · exact ⟨{ l with cold_start_cmd := true }, [], by rw [parse_options]; simp [hr]⟩
        · exact ⟨{ l with instance_num := to_uint32 (env.strtol x.optarg) },
            [.strtol x.optarg], by rw [parse_options]; simp [hr]⟩
      obtain ⟨l2, pre, hl2⟩ := hstep l
      have key : ∀ c, (parse_options env xs l2).1.getLast? = some c →
          (pre ++ (parse_options env xs l2).1).getLast? = some c := by
        intro c hc
        rw [List.getLast?_append, hc]
        rfl
      obtain ⟨i1, i2, i3⟩ := ih l2 h
      rw [hl2]
      exact ⟨fun hh => ⟨(i1 hh).1, key _ (i1 hh).2⟩, fun hh => ⟨(i2 hh).1, key _ (i2 hh).2⟩,
        fun hh => ⟨(i3 hh).1, key _ (i3 hh).2⟩⟩
    · rw [hx] at h
      simp only [Option.some.injEq] at h
      subst h
      refine ⟨?_, ?_, ?_⟩
      · intro hh
        have : x.i = 'h'.toNat := by simpa [is_help] using hh
        rw [parse_options]
        simp [this]
      · intro hh
        have : x.i = 'v'.toNat := by simpa [is_version] using hh
        rw [parse_options]
        simp [this]
      · intro hh
        simp [is_unrecognised, cmd_opts] at hh
        obtain ⟨h1, h2, h3, h4, h5, h6, h7⟩ := hh
        rw [parse_options]
        simp [h1, h2, h3, h4, h5, h6, h7]

theorem Run.after_trace (cs : List Call) (k : Run) : (Run.after cs k).trace = cs ++ k.trace :=
  rfl

theorem Run.after_outcome (cs : List Call) (k : Run) : (Run.after cs k).outcome = k.outcome :=
  rfl

theorem validate_directory_cases (env : Env) (path : String) (k : Run) :
    validate_directory env path k = k ∨
    ∃ msg, validate_directory env path k = ⟨[.cf_crash_nostack msg], .crashed⟩ := by
  unfold validate_directory
  split
  · exact Or.inr ⟨_, rfl⟩
  · exact Or.inr ⟨_, rfl⟩
  · exact Or.inl rfl

theorem write_pidfile_cases (env : Env) (pidfile : Option String) (k : Run) :
    (∃ cs, (∀ c ∈ cs, c.config_or_daemonize = false ∧ c.in_option_loop = false) ∧
      write_pidfile env pidfile k = Run.after cs k) ∨
    (∃ cs, (∀ c ∈ cs, c.config_or_daemonize = false ∧ c.in_option_loop = false) ∧
      write_pidfile env pidfile k = ⟨cs, .crashed⟩) := by
  unfold write_pidfile
  split
  · exact Or.inl ⟨[], by simp, rfl⟩
  · rename_i path
    by_cases ho : env.open_pidfile < 0
    · refine Or.inr ⟨[.remove path, .open_ path, .cf_crash_nostack "failed to open pid file %s: %s"], ?_, ?_⟩
      · simp [Call.config_or_daemonize, Call.in_option_loop]
      · simp [ho, Run.after]
    · by_cases hw : env.write_pidfile = -1
      · refine Or.inl ⟨[.remove path, .open_ path, .write, .cf_warning "failed write to pid file %s: %s", .close], ?_, ?_⟩
        · simp [Call.config_or_daemonize, Call.in_option_loop]
        · simp [ho, hw, Run.after]
      · refine Or.inl ⟨[.remove path, .open_ path, .write, .close], ?_, ?_⟩
        · simp [Call.config_or_daemonize, Call.in_option_loop]
        · simp [ho, hw, Run.after]

theorem Run.is_tail_after (cs : List Call) (k : Run)
    (hcs : ∀ c ∈ cs, c.config_or_daemonize = false) (hk : k.is_tail) :
    (Run.after cs k).is_tail := by
  refine ⟨?_, hk.2⟩
  intro c hc
  rw [Run.after_trace, List.mem_append] at hc
  rcases hc with hc | hc
  · exact hcs c hc
  · exact hk.1 c hc

theorem validate_directory_is_tail (env : Env) (path : String) (k : Run) (hk : k.is_tail) :
    (validate_directory env path k).is_tail := by
  rcases validate_directory_cases env path k with h | ⟨msg, h⟩
  · rw [h]
    exact hk
  · rw [h]
    exact ⟨by simp [Call.config_or_daemonize], by simp⟩

theorem write_pidfile_is_tail (env : Env) (pidfile : Option String) (k : Run)
    (hk : k.is_tail) : (write_pidfile env pidfile k).is_tail := by
  rcases write_pidfile_cases env pidfile k with ⟨cs, hcs, h⟩ | ⟨cs, hcs, h⟩
  · rw [h]
    exact Run.is_tail_after cs k (fun c hc => (hcs c hc).1) hk
  · rw [h]
    exact ⟨fun c hc => (hcs c hc).1, by simp⟩

theorem main_finish_is_tail (env : Env) (l : Locals) (c : as_config) :
    (main_finish env l c).is_tail := by
  unfold main_finish
  apply Run.is_tail_after
  · split_ifs <;> simp [Call.config_or_daemonize]
  apply Run.is_tail_after
  · simp [Call.config_or_daemonize]
  apply Run.is_tail_after
  · simp [Call.config_or_daemonize]
  apply Run.is_tail_after
  · split_ifs <;> simp [Call.config_or_daemonize]
  have hrest : (validate_directory env (env.as_config_post_process c l.config_file).work_directory <|
      validate_directory env (env.as_config_post_process c l.config_file).mod_lua_system_path <|
      validate_directory env (env.as_config_post_process c l.config_file).mod_lua_user_path <|
      validate_smd_directory env (env.as_config_post_process c l.config_file) <|
      ⟨init_subsystems l ++ start_subsystems, .service_ready⟩).is_tail := by
    apply validate_directory_is_tail
    apply validate_directory_is_tail
    apply validate_directory_is_tail
    apply validate_directory_is_tail
    exact ⟨by simp [init_subsystems, start_subsystems, Call.config_or_daemonize], by simp⟩
  by_cases hn : l.new_style_daemon = true
  · rw [if_neg (not_not.2 hn)]
    apply Run.is_tail_after _ _ _ hrest
    split_ifs <;> simp [Call.config_or_daemonize]
  · rw [if_pos hn]
    exact write_pidfile_is_tail _ _ _ hrest

theorem main_startup_outcome (env : Env) (l : Locals) (status : Int) :
    (main_startup env l).outcome ≠ .returned status := by
  unfold main_startup
  simp only [Run.after_outcome]
  by_cases hs : 0 ≠ env.cf_fault_sink_activate_all_held
  · rw [if_pos hs]
    simp
  · rw [if_neg hs, Run.after_outcome]
    exact (main_finish_is_tail env l _).2 status

theorem main_startup_config_init (env : Env) (l : Locals) (file : String) :
    Call.as_config_init file ∈ (main_startup env l).trace ↔ file = l.config_file := by
  have hfin : Call.as_config_init file ∉ (main_finish env l (env.as_config_init l.config_file)).trace :=
    fun h => absurd ((main_finish_is_tail env l _).1 _ h) (by simp [Call.config_or_daemonize])
  unfold main_startup
  simp only [Run.after_trace, List.mem_append, List.mem_singleton]
  constructor
  · rintro (h | h | h | h | h | h)
    · exact Call.as_config_init.inj h
    · split_ifs at h <;> simp at h
    · split_ifs at h <;> simp at h
    · split_ifs at h <;> simp at h
    · exact absurd h (by simp)
    · by_cases hs : 0 ≠ env.cf_fault_sink_activate_all_held
      · rw [if_pos hs] at h
        simp at h
      · rw [if_neg hs, Run.after_trace, List.mem_append] at h
        rcases h with h | h
        · by_cases hd : ¬ l.run_in_foreground = true ∧
              (env.as_config_init l.config_file).run_as_daemon = true
          · rw [if_pos hd] at h
            simp at h
          · rw [if_neg hd] at h
            simp at h
        · exact absurd h hfin
  · intro h
    exact Or.inl (by rw [h])

theorem main_startup_daemonize (env : Env) (l : Locals) :
    Call.cf_process_daemonize ∈ (main_startup env l).trace ↔
      env.cf_fault_sink_activate_all_held = 0 ∧ l.run_in_foreground = false ∧
      (env.as_config_init l.config_file).run_as_daemon = true := by
  have hfin : Call.cf_process_daemonize ∉
      (main_finish env l (env.as_config_init l.config_file)).trace :=
    fun h => absurd ((main_finish_is_tail env l _).1 _ h) (by simp [Call.config_or_daemonize])
  unfold main_startup
  simp only [Run.after_trace, List.mem_append, List.mem_singleton]
  constructor
  · rintro (h | h | h | h | h | h)
    · exact absurd h (by simp)
    · split_ifs at h <;> simp at h
    · split_ifs at h <;> simp at h
    · split_ifs at h <;> simp at h
    · exact absurd h (by simp)
    · by_cases hs : 0 ≠ env.cf_fault_sink_activate_all_held
      · rw [if_pos hs] at h
        simp at h
      · rw [if_neg hs, Run.after_trace, List.mem_append] at h
        rcases h with h | h
        · by_cases hd : ¬ l.run_in_foreground = true ∧
              (env.as_config_init l.config_file).run_as_daemon = true
          · refine ⟨?_, ?_, hd.2⟩
            · by_contra hne
              exact hs (fun h0 => hne h0.symm)
            · simpa using hd.1
          · rw [if_neg hd] at h
            simp at h
        · exact absurd h hfin
  · rintro ⟨hs, hf, hd⟩
    right; right; right; right; right
    rw [if_neg (by simp [hs]), Run.after_trace, List.mem_append]
    left
    rw [if_pos ⟨by simp [hf], hd⟩]
    simp

theorem main_of_exit (env : Env) (status : Int)
    (h : (parse_options env env.getopt_long Locals.init).2 = .inl status) :
    main env =
      ⟨main_prologue env ++ (parse_options env env.getopt_long Locals.init).1, .returned status⟩ := by
  rcases hp : parse_options env env.getopt_long Locals.init with ⟨calls, st | l⟩
  · rw [hp] at h
    simp only [Sum.inl.injEq] at h
    subst h
    simp [main, hp, Run.after]
  · rw [hp] at h
    simp at h

theorem main_of_done (env : Env) (l : Locals)
    (h : (parse_options env env.getopt_long Locals.init).2 = .inr l) :
    main env =
      Run.after (main_prologue env ++ (parse_options env env.getopt_long Locals.init).1)
        (main_startup env l) := by
  rcases hp : parse_options env env.getopt_long Locals.init with ⟨calls, st | l2⟩
  · rw [hp] at h
    simp at h
  · rw [hp] at h
    simp only [Sum.inr.injEq] at h
    subst h
    simp [main, hp, Run.after]

theorem main_prologue_calls (env : Env) :
    ∀ c ∈ main_prologue env,
      c = .asm_init ∨ c = .jem_init ∨ c = .cf_rc_init ∨ c = .cf_fault_init ∨
      c = .as_signal_setup ∨ c = .as_json_init := by
  intro c hc
  unfold main_prologue at hc
  simp only [List.mem_append, List.mem_cons, List.mem_singleton, List.not_mem_nil,
    or_false] at hc
  rcases hc with (hc | hc) | hc
  · by_cases h : env.USE_ASM = true
    · rw [if_pos h] at hc
      simp at hc
      exact Or.inl hc
    · rw [if_neg h] at hc
      simp at hc
  · by_cases h : env.USE_JEM = true
    · rw [if_pos h] at hc
      simp at hc
      exact Or.inr (Or.inl hc)
    · rw [if_neg h] at hc
      simp at hc
  · tauto

/-- Before `main` leaves the option loop it has made only the calls of its
prologue and of the loop: no `as_config_init`, no daemonize call, and no
subsystem initialisation or start. -/
theorem early_calls_not_startup (env : Env) (cs : List Call)
    (hcs : ∀ c ∈ cs, c.in_option_loop = true) :
    (∀ file, Call.as_config_init file ∉ main_prologue env ++ cs) ∧
    Call.cf_process_daemonize ∉ main_prologue env ++ cs ∧
    (∀ l, ∀ c ∈ main_prologue env ++ cs, c ∉ init_subsystems l ∧ c ∉ start_subsystems) := by
  have key : ∀ c ∈ main_prologue env ++ cs,
      (c = .asm_init ∨ c = .jem_init ∨ c = .cf_rc_init ∨ c = .cf_fault_init ∨
        c = .as_signal_setup ∨ c = .as_json_init) ∨ c.in_option_loop = true := by
    intro c hc
    rcases List.mem_append.1 hc with h | h
    · exact Or.inl (main_prologue_calls env c h)
    · exact Or.inr (hcs c h)
  refine ⟨?_, ?_, ?_⟩
  · intro file h
    rcases key _ h with (h | h | h | h | h | h) | h <;> simp [Call.in_option_loop] at h
  · intro h
    rcases key _ h with (h | h | h | h | h | h) | h <;> simp [Call.in_option_loop] at h
  · intro l c hc
    rcases key _ hc with (h | h | h | h | h | h) | h
    · subst h; simp [init_subsystems, start_subsystems]
    · subst h; simp [init_subsystems, start_subsystems]
    · subst h; simp [init_subsystems, start_subsystems]
    · subst h; simp [init_subsystems, start_subsystems]
    · subst h; simp [init_subsystems, start_subsystems]
    · subst h; simp [init_subsystems, start_subsystems]
    · constructor
      · intro hm
        simp only [init_subsystems, List.mem_cons, List.mem_singleton, List.not_mem_nil,
          or_false] at hm
        rcases hm with hm | hm | hm | hm | hm | hm | hm | hm | hm | hm | hm | hm | hm | hm |
          hm | hm | hm | hm | hm | hm | hm | hm | hm | hm | hm <;> subst hm <;>
          simp [Call.in_option_loop] at h
      · intro hm
        simp only [start_subsystems, List.mem_cons, List.mem_singleton, List.not_mem_nil,
          or_false] at hm
        rcases hm with hm | hm | hm | hm | hm | hm | hm | hm | hm | hm <;> subst hm <;>
          simp [Call.in_option_loop] at h

theorem find_ends_main (rs : List getopt_result) :
    (∃ r, rs.find? ends_main = some r ∧ r ∈ rs ∧ ends_main r = true) ∨
    (rs.find? ends_main = none ∧ ∀ r ∈ rs, ends_main r = false) := by
  cases h : rs.find? ends_main with
  | none =>
    right
    refine ⟨rfl, ?_⟩
    intro r hr
    have := List.find?_eq_none.1 h r hr
    simpa using this
  | some r =>
    left
    exact ⟨r, rfl, List.mem_of_find?_eq_some h, List.find?_some h⟩

theorem parse_options_exit_status (env : Env) (rs : List getopt_result) (l : Locals)
    (r : getopt_result) (h : rs.find? ends_main = some r) :
    ∃ status, (parse_options env rs l).2 = .inl status := by
  have he : ends_main r = true := List.find?_some h
  obtain ⟨h1, h2, h3⟩ := parse_options_exit env rs l r h
  simp only [ends_main, Bool.or_eq_true] at he
  rcases he with (he | he) | he
  · exact ⟨0, (h1 he).1⟩
  · exact ⟨0, (h2 he).1⟩
  · exact ⟨1, (h3 he).1⟩

theorem selected_config_file_eq (rs : List getopt_result) :
    (match (rs.filter is_config_file).getLast? with
      | none => Locals.init.config_file
      | some r => r.optarg) = selected_config_file rs :=
  rfl

/-- The two ways `main` goes on from the option loop: it returns from inside
the loop, having made only prologue and loop calls, or it goes through
`main_startup` with the configuration file and the foreground flag the
command line selects. -/
theorem main_cases (env : Env) :
    (∃ r status cs, env.getopt_long.find? ends_main = some r ∧
      (∀ c ∈ cs, c.in_option_loop = true) ∧
      main env = ⟨main_prologue env ++ cs, .returned status⟩) ∨
    ((∀ r ∈ env.getopt_long, ends_main r = false) ∧
      ∃ l cs, (∀ c ∈ cs, c.in_option_loop = true) ∧
        l.config_file = selected_config_file env.getopt_long ∧
        l.run_in_foreground =
          env.getopt_long.any (fun r => is_foreground r || is_fgdaemon r) ∧
        main env = Run.after (main_prologue env ++ cs) (main_startup env l)) := by
  rcases find_ends_main env.getopt_long with ⟨r, hf, -, -⟩ | ⟨-, hall⟩
  · left
    obtain ⟨status, hs⟩ := parse_options_exit_status env _ Locals.init r hf
    exact ⟨r, status, _, hf, parse_options_calls env _ _, main_of_exit env status hs⟩
  · right
    obtain ⟨l, h1, h2, h3⟩ := parse_options_done env _ Locals.init hall
    refine ⟨hall, l, _, parse_options_calls env _ _, ?_, ?_, main_of_done env l h1⟩
    · rw [h2, selected_config_file_eq]
    · rw [h3]
      simp [Locals.init]

theorem main_config_init_iff (env : Env) (file : String) :
    Call.as_config_init file ∈ (main env).trace ↔
      (∀ r ∈ env.getopt_long, ends_main r = false) ∧
      file = selected_config_file env.getopt_long := by
  rcases main_cases env with ⟨r, status, cs, hf, hcs, hm⟩ | ⟨hall, l, cs, hcs, hc, -, hm⟩
  · rw [hm]
    constructor
    · intro h
      exact absurd h ((early_calls_not_startup env cs hcs).1 file)
    · rintro ⟨hall, -⟩
      have := hall r (List.mem_of_find?_eq_some hf)
      rw [List.find?_some hf] at this
      exact absurd this (by simp)
  · rw [hm, Run.after_trace, List.mem_append, main_startup_config_init, hc]
    constructor
    · rintro (h | h)
      · exact absurd h ((early_calls_not_startup env cs hcs).1 file)
      · exact ⟨hall, h⟩
    · rintro ⟨-, h⟩
      exact Or.inr h

theorem main_daemonize_iff (env : Env) :
    Call.cf_process_daemonize ∈ (main env).trace ↔
      (∀ r ∈ env.getopt_long, ends_main r = false) ∧
      env.cf_fault_sink_activate_all_held = 0 ∧
      (∀ r ∈ env.getopt_long, is_foreground r = false ∧ is_fgdaemon r = false) ∧
      (env.as_config_init (selected_config_file env.getopt_long)).run_as_daemon = true := by
  rcases main_cases env with ⟨r, status, cs, hf, hcs, hm⟩ | ⟨hall, l, cs, hcs, hc, hfg, hm⟩
  · rw [hm]
    constructor
    · intro h
      exact absurd h (early_calls_not_startup env cs hcs).2.1
    · rintro ⟨hall, -⟩
      have := hall r (List.mem_of_find?_eq_some hf)
      rw [List.find?_some hf] at this
      exact absurd this (by simp)
  · have hany : l.run_in_foreground = false ↔
        ∀ r ∈ env.getopt_long, is_foreground r = false ∧ is_fgdaemon r = false := by
      rw [hfg]
      simp [List.any_eq_false]
    rw [hm, Run.after_trace, List.mem_append, main_startup_daemonize, hc, hany]
    constructor
    · rintro (h | h)
      · exact absurd h (early_calls_not_startup env cs hcs).2.1
      · exact ⟨hall, h⟩
    · rintro ⟨-, h⟩
      exact Or.inr h

/-! ## The server's command line -/

/-- C7: `main` returns from its option loop exactly when `getopt_long` yields
`--help`, `--version` or an option it does not recognise, and the first such
option on the command line decides the outcome: `--help` prints `HELP` and
`--version` the build line, both returning 0, and an unrecognised option
prints `USAGE` to stderr and returns 1. In all three cases `main` has by then
called neither `as_config_init` nor any subsystem initialisation or start. -/
theorem main_option_loop_early_exit (env : Env) :
    ((∃ status, (main env).outcome = .returned status) ↔
      ∃ r ∈ env.getopt_long, ends_main r = true) ∧
    ∀ r, env.getopt_long.find? ends_main = some r →
      (is_help r = true →
        (main env).outcome = .returned 0 ∧
        (main env).trace.getLast? = some (.printf (HELP ++ "\n"))) ∧
      (is_version r = true →
        (main env).outcome = .returned 0 ∧
        (main env).trace.getLast? = some
          (.printf (env.aerospike_build_type ++ " build " ++ env.aerospike_build_id ++ "\n"))) ∧
      (is_unrecognised r = true →
        (main env).outcome = .returned 1 ∧
        (main env).trace.getLast? = some (.fprintf_stderr (USAGE ++ "\n"))) ∧
      (∀ file, Call.as_config_init file ∉ (main env).trace) ∧
      (∀ l, ∀ c ∈ (main env).trace, c ∉ init_subsystems l ∧ c ∉ start_subsystems) := by
  constructor
  · constructor
    · rintro ⟨status, hs⟩
      rcases main_cases env with ⟨r, -, -, hf, -, -⟩ | ⟨-, l, cs, -, -, -, hm⟩
      · exact ⟨r, List.mem_of_find?_eq_some hf, List.find?_some hf⟩
      · rw [hm, Run.after_outcome] at hs
        exact absurd hs (main_startup_outcome env l status)
    · rintro ⟨r, hr, he⟩
      rcases main_cases env with ⟨-, status, cs, -, -, hm⟩ | ⟨hall, -⟩
      · exact ⟨status, by rw [hm]⟩
      · rw [hall r hr] at he
        exact absurd he (by simp)
  · intro r hf
    obtain ⟨h1, h2, h3⟩ := parse_options_exit env env.getopt_long Locals.init r hf
    obtain ⟨status, hs⟩ := parse_options_exit_status env _ Locals.init r hf
    have hm := main_of_exit env status hs
    have hcalls := early_calls_not_startup env _ (parse_options_calls env env.getopt_long Locals.init)
    have hlast : ∀ c, (parse_options env env.getopt_long Locals.init).1.getLast? = some c →
        (main env).trace.getLast? = some c := by
      intro c hc
      rw [hm]
      simp only
      rw [List.getLast?_append, hc]
      rfl
    have hout : ∀ s, (parse_options env env.getopt_long Locals.init).2 = .inl s →
        (main env).outcome = .returned s := by
      intro s h
      rw [hs] at h
      rw [hm, ← Sum.inl.inj h]
    refine ⟨fun hh => ⟨hout _ (h1 hh).1, hlast _ (h1 hh).2⟩,
      fun hh => ⟨hout _ (h2 hh).1, hlast _ (h2 hh).2⟩,
      fun hh => ⟨hout _ (h3 hh).1, hlast _ (h3 hh).2⟩, ?_, ?_⟩
    · intro file
      rw [hm]
      exact hcalls.1 file
    · intro l
      rw [hm]
      exact hcalls.2.2 l

/-- C7 on `asd --foreground --help --bogus`: the first of `--help` and `--bogus`
decides, `main` prints `HELP` and returns 0. -/
theorem main_option_loop_early_exit_sample :
    (main (sample_env cmdline_foreground_help_bogus 0)).outcome = .returned 0 ∧
    (main (sample_env cmdline_foreground_help_bogus 0)).trace.getLast? =
      some (.printf (HELP ++ "\n")) :=
  ((main_option_loop_early_exit (sample_env cmdline_foreground_help_bogus 0)).2
    ⟨'h'.toNat, ""⟩ (by decide)).1 (by decide)

/-- C8: the file `main` passes to `as_config_init` is the default location
`/etc/aerospike/aerospike.conf` when the command line has no `--config-file`
option, and the argument of the last `--config-file` option when it has one or
more; `main` makes that call whenever its option loop does not return. -/
theorem main_config_file_selection (env : Env) :
    ((∀ r ∈ env.getopt_long, is_config_file r = false) →
      ∀ file, Call.as_config_init file ∈ (main env).trace →
        file = "/etc/aerospike/aerospike.conf") ∧
    (∀ r, (env.getopt_long.filter is_config_file).getLast? = some r →
      ∀ file, Call.as_config_init file ∈ (main env).trace → file = r.optarg) ∧
    ((∀ r ∈ env.getopt_long, ends_main r = false) →
      ∃ file, Call.as_config_init file ∈ (main env).trace) := by
  refine ⟨?_, ?_, ?_⟩
  · intro hno file hfile
    have h := ((main_config_init_iff env file).1 hfile).2
    have hnil : env.getopt_long.filter is_config_file = [] := by
      rw [List.filter_eq_nil_iff]
      intro r hr
      simp [hno r hr]
    rw [h, selected_config_file, hnil]
    rfl
  · intro r hr file hfile
    have h := ((main_config_init_iff env file).1 hfile).2
    rw [h, selected_config_file, hr]
  · intro hall
    exact ⟨_, (main_config_init_iff env _).2 ⟨hall, rfl⟩⟩

/-- C8 on `asd --config-file a.conf --cold-start --config-file b.conf`: `main`
calls `as_config_init` on `b.conf`. -/
theorem main_config_file_selection_sample :
    ∀ file, Call.as_config_init file ∈ (main (sample_env cmdline_two_config_files 0)).trace →
      file = "b.conf" :=
  (main_config_file_selection (sample_env cmdline_two_config_files 0)).2.1
    ⟨'f'.toNat, "b.conf"⟩ (by decide)

/-- C9, as stated, fails. On `asd --version` with a configuration that says
`run-as-daemon true`, and on `asd --cold-start` with the same configuration when
the log sinks cannot be opened, neither `--foreground` nor `--fgdaemon` is given
and `main` does not call `cf_process_daemonize`: it returns 0 from the option
loop in the first run and is ended by `cf_crash_nostack` in the second. -/
theorem main_not_daemonized_without_foreground :
    ((∀ r ∈ cmdline_version, is_foreground r = false ∧ is_fgdaemon r = false) ∧
      ((sample_env cmdline_version 0).as_config_init
        (selected_config_file cmdline_version)).run_as_daemon = true ∧
      main (sample_env cmdline_version 0) =
        ⟨[.cf_rc_init, .cf_fault_init, .as_signal_setup, .as_json_init,
          .printf "Aerospike Community Edition build 3.5.14\n"], .returned 0⟩ ∧
      Call.cf_process_daemonize ∉ (main (sample_env cmdline_version 0)).trace) ∧
    ((∀ r ∈ cmdline_cold_start, is_foreground r = false ∧ is_fgdaemon r = false) ∧
      ((sample_env cmdline_cold_start (-1)).as_config_init
        (selected_config_file cmdline_cold_start)).run_as_daemon = true ∧
      main (sample_env cmdline_cold_start (-1)) =
        ⟨[.cf_rc_init, .cf_fault_init, .as_signal_setup, .as_json_init,
          .as_config_init "/etc/aerospike/aerospike.conf", .cf_fault_sink_activate_all_held,
          .cf_crash_nostack "can't open log sink(s)"], .crashed⟩ ∧
      Call.cf_process_daemonize ∉ (main (sample_env cmdline_cold_start (-1))).trace) := by
  have h1 : main (sample_env cmdline_version 0) =
      ⟨[.cf_rc_init, .cf_fault_init, .as_signal_setup, .as_json_init,
        .printf "Aerospike Community Edition build 3.5.14\n"], .returned 0⟩ := by
    rfl
  have h2 : main (sample_env cmdline_cold_start (-1)) =
      ⟨[.cf_rc_init, .cf_fault_init, .as_signal_setup, .as_json_init,
        .as_config_init "/etc/aerospike/aerospike.conf", .cf_fault_sink_activate_all_held,
        .cf_crash_nostack "can't open log sink(s)"], .crashed⟩ := by
    rfl
  refine ⟨⟨by decide, rfl, h1, ?_⟩, ⟨by decide, rfl, h2, ?_⟩⟩
  · rw [h1]
    simp
  · rw [h2]
    simp

/-- C9, amended: `main` calls `cf_process_daemonize` exactly when its option
loop does not return (no `--help`, `--version` or unrecognised option), the log
sinks are activated (`cf_fault_sink_activate_all_held` returns 0), neither
`--foreground` nor `--fgdaemon` is on the command line, and the configuration
read from the selected file has `run-as-daemon` true. So `--foreground` alone,
or `run-as-daemon false` alone, keeps the server from being daemonized. -/
theorem main_daemonizes_iff_reached (env : Env) :
    (Call.cf_process_daemonize ∈ (main env).trace ↔
      (∀ r ∈ env.getopt_long, ends_main r = false) ∧
      env.cf_fault_sink_activate_all_held = 0 ∧
      (∀ r ∈ env.getopt_long, is_foreground r = false ∧ is_fgdaemon r = false) ∧
      (env.as_config_init (selected_config_file env.getopt_long)).run_as_daemon = true) ∧
    ((∃ r ∈ env.getopt_long, is_foreground r = true) →
      Call.cf_process_daemonize ∉ (main env).trace) ∧
    ((env.as_config_init (selected_config_file env.getopt_long)).run_as_daemon = false →
      Call.cf_process_daemonize ∉ (main env).trace) := by
  refine ⟨main_daemonize_iff env, ?_, ?_⟩
  · rintro ⟨r, hr, hfg⟩ h
    have := (((main_daemonize_iff env).1 h).2.2.1 r hr).1
    rw [hfg] at this
    exact absurd this (by simp)
  · intro hd h
    have := ((main_daemonize_iff env).1 h).2.2.2
    rw [hd] at this
    exact absurd this (by simp)

/-- C9, amended, on `asd --cold-start` with `run-as-daemon true` and the log
sinks activated: `main` calls `cf_process_daemonize`. -/
theorem main_daemonizes_iff_reached_sample :
    Call.cf_process_daemonize ∈ (main (sample_env cmdline_cold_start 0)).trace :=
  (main_daemonizes_iff_reached (sample_env cmdline_cold_start 0)).1.2
    ⟨by decide, rfl, by decide, rfl⟩

end Aerospike
